import Mathlib

/-!
Verification of the timeline engine of a restaurant reservation system.

Times are modelled as integer minutes since midnight of the reference day
(the TypeScript source manipulates `Date` values via date-fns at minute
granularity; `parseISO`, `toISOString` and `new Date` round-trips are the
identity in this model, and `addMinutes`/`differenceInMinutes` become
integer addition/subtraction).
-/

namespace RMS

/-! ### Coordinate transform constants (src/utils/timeCalculations.ts) -/

def SLOT_MINUTES : Int := 15

def START_HOUR : Int := 11

def END_HOUR : Int := 24

def getOperatingMinutes : Int := (END_HOUR - START_HOUR) * 60

def getTotalSlots : Int := getOperatingMinutes / SLOT_MINUTES

/-- Minutes since midnight of the operating-window start
(`setMinutes(setHours(dayStart, START_HOUR), 0)` in the source). -/
def operatingStart : Int := START_HOUR * 60

/-- Model of `timeToSlotIndex`: minutes since the operating-window start,
floor-divided by `SLOT_MINUTES` (`Math.floor` is `Int.fdiv`). -/
def timeToSlotIndex (time : Int) : Int :=
  Int.fdiv (time - operatingStart) SLOT_MINUTES

/-- Model of `slotIndexToTime`: `addMinutes(operatingStart, slotIndex * SLOT_MINUTES)`. -/
def slotIndexToTime (slotIndex : Int) : Int :=
  operatingStart + slotIndex * SLOT_MINUTES

/-- Model of `slotsToDuration`: `slots * SLOT_MINUTES`. -/
def slotsToDuration (slots : Int) : Int := slots * SLOT_MINUTES

/-- Model of `clampSlotIndex`: clamp into `[0, getTotalSlots - 1]`
(`Math.max(0, Math.min(slotIndex, maxSlot))`). -/
def clampSlotIndex (slotIndex : Int) : Int :=
  max 0 (min slotIndex (getTotalSlots - 1))

/-! ### Claim C7: slot round-trip -/

/-- Claim C7: for every time aligned to a slot boundary of the operating
window, `slotIndexToTime (timeToSlotIndex t) = t`; for arbitrary times the
composition rounds down to the start of the enclosing slot (it is at most
`t`, within one slot of `t`, and slot-aligned), and it is not a strict
round-trip in general. -/
theorem slotRoundTrip_spec :
    (∀ t : Int, (∃ k : Int, t = operatingStart + k * SLOT_MINUTES) →
      slotIndexToTime (timeToSlotIndex t) = t)
    ∧ (∀ t : Int,
        slotIndexToTime (timeToSlotIndex t) ≤ t
        ∧ t < slotIndexToTime (timeToSlotIndex t) + SLOT_MINUTES
        ∧ ∃ k : Int, slotIndexToTime (timeToSlotIndex t) = operatingStart + k * SLOT_MINUTES)
    ∧ (∃ t : Int, slotIndexToTime (timeToSlotIndex t) ≠ t) := by
  have hcomp : ∀ t : Int, slotIndexToTime (timeToSlotIndex t)
      = operatingStart + ((t - operatingStart) / 15) * 15 := by
    intro t
    have h15 : (0 : Int) ≤ 15 := by norm_num
    simp only [slotIndexToTime, timeToSlotIndex, SLOT_MINUTES]
    rw [Int.fdiv_eq_ediv _ h15]
  refine ⟨?_, ?_, ?_⟩
  · rintro t ⟨k, rfl⟩
    rw [hcomp]
    have : (operatingStart + k * SLOT_MINUTES - operatingStart) = k * 15 := by
      simp [SLOT_MINUTES]
    rw [this, Int.mul_ediv_cancel _ (by norm_num)]
    simp [SLOT_MINUTES]
  · intro t
    have h15 : (0 : Int) < 15 := by norm_num
    have hdm := Int.ediv_add_emod (t - operatingStart) 15
    have hmn := Int.emod_nonneg (t - operatingStart) (by norm_num : (15 : Int) ≠ 0)
    have hml := Int.emod_lt_of_pos (t - operatingStart) h15
    refine ⟨?_, ?_, ⟨(t - operatingStart) / 15, ?_⟩⟩
    · rw [hcomp]; omega
    · rw [hcomp]; simp only [SLOT_MINUTES]; omega
    · rw [hcomp]; simp [SLOT_MINUTES]
  · refine ⟨operatingStart + 1, ?_⟩
    rw [hcomp]
    norm_num [operatingStart, START_HOUR]

/-- Witness for C7: the slot-aligned time 675 (= 11:15) round-trips exactly. -/
theorem slotRoundTrip_spec_witness :
    slotIndexToTime (timeToSlotIndex 675) = 675 :=
  slotRoundTrip_spec.1 675 ⟨1, by norm_num [operatingStart, START_HOUR, SLOT_MINUTES]⟩

/-! ### Data model (src/types/models, as used by the conflict detector) -/

inductive ReservationStatus where
  | PENDING
  | CONFIRMED
  | SEATED
  | FINISHED
  | NO_SHOW
  | CANCELLED
deriving DecidableEq, Repr

structure Reservation where
  id : String
  tableId : String
  startTime : Int
  endTime : Int
  durationMinutes : Int
  status : ReservationStatus
deriving DecidableEq, Repr

/-- The `Partial<Reservation>` argument of `checkReservationConflict`:
only the three fields the function reads, each possibly absent. -/
structure ProposedReservation where
  tableId : Option String
  startTime : Option Int
  endTime : Option Int
deriving DecidableEq, Repr

structure ConflictCheck where
  hasConflict : Bool
  conflictingReservationIds : List String
  reason : Option String
deriving DecidableEq, Repr

/-- Model of the date-fns helper `areIntervalsOverlapping` with default options: endpoints of
each interval are normalized (sorted), and the overlap test is strict
(`leftStart < rightEnd && rightStart < leftEnd`), so touching endpoints do
not overlap. -/
def areIntervalsOverlapping (leftStart leftEnd rightStart rightEnd : Int) : Bool :=
  let ls := min leftStart leftEnd
  let le := max leftStart leftEnd
  let rs := min rightStart rightEnd
  let re := max rightStart rightEnd
  decide (ls < re) && decide (rs < le)

/-! ### Conflict detector (src/utils/gridHelpers.ts) -/

/-- Model of `checkReservationConflict`: returns early with no conflict when the
proposal is missing its table, start or end; otherwise collects the id of
every existing reservation on the same table that is not the excluded id,
is not `CANCELLED`, and overlaps the proposed interval. -/
def checkReservationConflict (reservation : ProposedReservation)
    (existingReservations : List Reservation) (excludeId : Option String) :
    ConflictCheck :=
  match reservation.tableId, reservation.startTime, reservation.endTime with
  | some tableId, some newStart, some newEnd =>
      let conflictingIds : List String :=
        existingReservations.filterMap (fun existing =>
          if excludeId = some existing.id then none
          else if existing.tableId ≠ tableId then none
          else if existing.status = ReservationStatus.CANCELLED then none
          else if areIntervalsOverlapping newStart newEnd
              existing.startTime existing.endTime then some existing.id
          else none)
      { hasConflict := decide (conflictingIds.length > 0)
        conflictingReservationIds := conflictingIds
        reason := if conflictingIds.length > 0 then some "overlap" else none }
  | _, _, _ =>
      { hasConflict := false, conflictingReservationIds := [], reason := none }

/-- Model of `hasTimeConflict` (ReservationBlock/utils/reservationCalculations.ts):
the raw half-open overlap test against each reservation of the same table. -/
def hasTimeConflict (tableId : String) (startTime : Int) (duration : Int)
    (dateReservations : List Reservation) : Bool :=
  let endTime := startTime + duration
  dateReservations.any (fun r =>
    if r.tableId ≠ tableId then false
    else decide (startTime < r.endTime) && decide (endTime > r.startTime))

/-! ### Claim C1: half-open overlap -/

/-- Claim C1: for a proposed interval and any other reservation on the same
table (not cancelled, both intervals well formed), `checkReservationConflict`
reports a conflict exactly when `proposed.start < other.end` and
`proposed.end > other.start`; in particular touching endpoints (one interval
ending exactly when the other starts) never conflict. -/
theorem checkConflict_overlap_iff (tableId : String) (pStart pEnd : Int)
    (other : Reservation) (hp : pStart ≤ pEnd)
    (ho : other.startTime ≤ other.endTime)
    (htable : other.tableId = tableId)
    (hstatus : other.status ≠ ReservationStatus.CANCELLED) :
    ((checkReservationConflict ⟨some tableId, some pStart, some pEnd⟩
        [other] none).hasConflict = true
      ↔ (pStart < other.endTime ∧ pEnd > other.startTime))
    ∧ (pEnd = other.startTime →
        (checkReservationConflict ⟨some tableId, some pStart, some pEnd⟩
          [other] none).hasConflict = false)
    ∧ (other.endTime = pStart →
        (checkReservationConflict ⟨some tableId, some pStart, some pEnd⟩
          [other] none).hasConflict = false) := by
  have hover : areIntervalsOverlapping pStart pEnd other.startTime other.endTime
      = (decide (pStart < other.endTime) && decide (pEnd > other.startTime)) := by
    simp only [areIntervalsOverlapping, min_eq_left hp, max_eq_right hp,
      min_eq_left ho, max_eq_right ho]
  have hmain : (checkReservationConflict ⟨some tableId, some pStart, some pEnd⟩
      [other] none).hasConflict = true ↔ (pStart < other.endTime ∧ pEnd > other.startTime) := by
    simp only [checkReservationConflict, List.filterMap, hover]
    by_cases h1 : pStart < other.endTime <;> by_cases h2 : pEnd > other.startTime <;>
      simp [h1, h2, htable, hstatus]
  refine ⟨hmain, ?_, ?_⟩
  · intro htouch
    rw [Bool.eq_false_iff]
    intro hc
    have := hmain.mp hc
    omega
  · intro htouch
    rw [Bool.eq_false_iff]
    intro hc
    have := hmain.mp hc
    omega

/-- Witness for C1: table "T1", proposed 12:00 to 13:00 (minutes 720 to 780)
against an existing confirmed reservation 13:00 to 14:00 — touching
endpoints, so no conflict. -/
theorem checkConflict_overlap_iff_witness :
    (checkReservationConflict ⟨some "T1", some 720, some 780⟩
      [⟨"r1", "T1", 780, 840, 60, ReservationStatus.CONFIRMED⟩] none).hasConflict
      = false :=
  (checkConflict_overlap_iff "T1" 720 780
    ⟨"r1", "T1", 780, 840, 60, ReservationStatus.CONFIRMED⟩
    (by norm_num) (by norm_num) rfl (by simp)).2.1 rfl

/-! ### Claim C2: exclusion and completeness of conflictingIds -/

/-- Claim C2: with an exclusion id `X`, the excluded id is never reported;
moreover an id is reported exactly when it belongs to a listed reservation
that is not the excluded one, is on the proposed table, is not cancelled,
and overlaps the proposed interval (so every remaining overlapping
reservation is reported, not just the first). -/
theorem checkConflict_exclusion (tableId : String) (pStart pEnd : Int)
    (reservations : List Reservation) (X : String) (hp : pStart ≤ pEnd)
    (hwf : ∀ r ∈ reservations, r.startTime ≤ r.endTime) :
    (X ∉ (checkReservationConflict ⟨some tableId, some pStart, some pEnd⟩
        reservations (some X)).conflictingReservationIds)
    ∧ ∀ i : String,
      (i ∈ (checkReservationConflict ⟨some tableId, some pStart, some pEnd⟩
          reservations (some X)).conflictingReservationIds
        ↔ ∃ r ∈ reservations, r.id = i ∧ r.id ≠ X ∧ r.tableId = tableId
            ∧ r.status ≠ ReservationStatus.CANCELLED
            ∧ pStart < r.endTime ∧ pEnd > r.startTime) := by
  have hchar : ∀ i : String,
      (i ∈ (checkReservationConflict ⟨some tableId, some pStart, some pEnd⟩
          reservations (some X)).conflictingReservationIds
        ↔ ∃ r ∈ reservations, r.id = i ∧ r.id ≠ X ∧ r.tableId = tableId
            ∧ r.status ≠ ReservationStatus.CANCELLED
            ∧ pStart < r.endTime ∧ pEnd > r.startTime) := by
    intro i
    simp only [checkReservationConflict, List.mem_filterMap]
    constructor
    · rintro ⟨r, hr, hf⟩
      by_cases hx : (some X : Option String) = some r.id
      · simp [hx] at hf
      · by_cases ht : r.tableId ≠ tableId
        · simp [hx, ht] at hf
        · by_cases hs : r.status = ReservationStatus.CANCELLED
          · simp [hx, ht, hs] at hf
          · by_cases hov : areIntervalsOverlapping pStart pEnd r.startTime r.endTime
            · simp [hx, ht, hs, hov] at hf
              have hr2 := hwf r hr
              have : (min pStart pEnd < max r.startTime r.endTime)
                  ∧ (min r.startTime r.endTime < max pStart pEnd) := by
                simpa [areIntervalsOverlapping] using hov
              refine ⟨r, hr, hf, ?_, by push_neg at ht; exact ht, hs, ?_, ?_⟩
              · intro h
                exact hx (congrArg Option.some h.symm)
              · rw [min_eq_left hp] at this
                rw [max_eq_right hr2] at this
                exact this.1
              · rw [min_eq_left hr2, max_eq_right hp] at this
                omega
            · simp [hx, ht, hs, hov] at hf
    · rintro ⟨r, hr, hid, hne, ht, hs, h1, h2⟩
      refine ⟨r, hr, ?_⟩
      have hx : ¬((some X : Option String) = some r.id) := by
        intro h
        exact hne (Option.some.inj h).symm
      have hov : areIntervalsOverlapping pStart pEnd r.startTime r.endTime = true := by
        have hr2 := hwf r hr
        simp only [areIntervalsOverlapping, min_eq_left hp, max_eq_right hp,
          min_eq_left hr2, max_eq_right hr2]
        simp only [Bool.and_eq_true, decide_eq_true_eq]
        omega
      rw [if_neg hx, if_neg (by simp [ht]), if_neg hs, if_pos hov]
      exact congrArg Option.some hid
  refine ⟨?_, hchar⟩
  intro hmem
  obtain ⟨r, _, hid, hne, _⟩ := (hchar X).mp hmem
  exact hne hid

/-- Witness for C2: proposed 12:00 to 14:00 on table "T1" with exclusion id
"r1"; "r1" overlaps but is excluded, "r2" overlaps and is reported. -/
theorem checkConflict_exclusion_witness :
    ("r1" ∉ (checkReservationConflict ⟨some "T1", some 720, some 840⟩
        [⟨"r1", "T1", 700, 760, 60, ReservationStatus.CONFIRMED⟩,
         ⟨"r2", "T1", 800, 860, 60, ReservationStatus.CONFIRMED⟩]
        (some "r1")).conflictingReservationIds)
    ∧ ("r2" ∈ (checkReservationConflict ⟨some "T1", some 720, some 840⟩
        [⟨"r1", "T1", 700, 760, 60, ReservationStatus.CONFIRMED⟩,
         ⟨"r2", "T1", 800, 860, 60, ReservationStatus.CONFIRMED⟩]
        (some "r1")).conflictingReservationIds) := by
  have h := checkConflict_exclusion "T1" 720 840
    [⟨"r1", "T1", 700, 760, 60, ReservationStatus.CONFIRMED⟩,
     ⟨"r2", "T1", 800, 860, 60, ReservationStatus.CONFIRMED⟩]
    "r1" (by norm_num)
    (by intro r hr; fin_cases hr <;> norm_num)
  refine ⟨h.1, (h.2 "r2").mpr ?_⟩
  refine ⟨⟨"r2", "T1", 800, 860, 60, ReservationStatus.CONFIRMED⟩, ?_, rfl, ?_, rfl, ?_, ?_, ?_⟩
  · simp
  · simp
  · simp
  · norm_num
  · norm_num

/-! ### Claim C10: incomplete proposal never conflicts -/

/-- Claim C10: when the proposal is missing its table id, its start time or
its end time, the result is exactly no conflict with an empty id list,
whatever the reservation list and exclusion id. -/
theorem checkConflict_incomplete (proposed : ProposedReservation)
    (reservations : List Reservation) (excludeId : Option String)
    (h : proposed.tableId = none ∨ proposed.startTime = none ∨ proposed.endTime = none) :
    checkReservationConflict proposed reservations excludeId
      = { hasConflict := false, conflictingReservationIds := [], reason := none } := by
  obtain ⟨t, s, e⟩ := proposed
  simp only [checkReservationConflict]
  rcases h with h | h | h <;> simp_all

/-- Witness for C10: a proposal with a table and start but no end time is
reported conflict-free even against an overlapping reservation. -/
theorem checkConflict_incomplete_witness :
    checkReservationConflict ⟨some "T1", some 720, none⟩
      [⟨"r1", "T1", 700, 760, 60, ReservationStatus.CONFIRMED⟩] none
      = { hasConflict := false, conflictingReservationIds := [], reason := none } :=
  checkConflict_incomplete ⟨some "T1", some 720, none⟩
    [⟨"r1", "T1", 700, 760, 60, ReservationStatus.CONFIRMED⟩] none
    (Or.inr (Or.inr rfl))

/-! ### Drag state machine (src/hooks/useDragAndDrop.ts, src/stores/reservationStore.ts) -/

inductive DragType where
  | create
  | move
  | resizeStart
  | resizeEnd
deriving DecidableEq, Repr

structure DragState where
  isDragging : Bool
  dragType : Option DragType
  tableId : Option String
  startSlot : Option Int
  endSlot : Option Int
  reservationId : Option String
deriving DecidableEq, Repr

/-- Model of `initialDragState` from the reservation store; `resetDragState` sets the
store back to this value. -/
def initialDragState : DragState :=
  { isDragging := false, dragType := none, tableId := none
    startSlot := none, endSlot := none, reservationId := none }

structure DragCreateResult where
  tableId : String
  startTime : Int
  endTime : Int
  durationMinutes : Int
deriving DecidableEq, Repr

structure DragMoveResult where
  reservationId : String
  newTableId : String
  newStartTime : Int
  newEndTime : Int
deriving DecidableEq, Repr

structure DragResizeResult where
  reservationId : String
  newStartTime : Int
  newEndTime : Int
  newDurationMinutes : Int
deriving DecidableEq, Repr

/-- Model of `handleCreateDragEnd`: returns the emitted result (if any) together with
the drag state after the unconditional `resetDragState()`. -/
def handleCreateDragEnd (dragState : DragState) :
    Option DragCreateResult × DragState :=
  match dragState.dragType, dragState.startSlot, dragState.endSlot,
      dragState.tableId with
  | some DragType.create, some startSlot, some endSlot, some tableId =>
      let startTime := slotIndexToTime startSlot
      let endTime := slotIndexToTime endSlot
      let durationMinutes := slotsToDuration (endSlot - startSlot)
      (some { tableId := tableId, startTime := startTime, endTime := endTime
              durationMinutes := durationMinutes },
       initialDragState)
  | _, _, _, _ => (none, initialDragState)

/-- The pointer-up commit path of the timeline grid (`handleMouseUp` in
TimelineGrid): bails out unless a create drag is active, then forwards the
result of `handleCreateDragEnd` only when `durationMinutes >= 30`. -/
def timelineGridMouseUp (dragState : DragState) :
    Option DragCreateResult × DragState :=
  if ¬dragState.isDragging ∨ dragState.dragType ≠ some DragType.create then
    (none, dragState)
  else
    let step := handleCreateDragEnd dragState
    match step.1 with
    | some result =>
        (if result.durationMinutes ≥ 30 then some result else none, step.2)
    | none => (none, step.2)

/-- Model of `handleMoveDragEnd`: the store lookup `getReservationById` is passed in
as a function. -/
def handleMoveDragEnd (dragState : DragState)
    (getReservationById : String → Option Reservation) :
    Option DragMoveResult × DragState :=
  match dragState.dragType, dragState.reservationId, dragState.startSlot,
      dragState.endSlot, dragState.tableId with
  | some DragType.move, some reservationId, some startSlot, some endSlot,
      some tableId =>
      match getReservationById reservationId with
      | none => (none, initialDragState)
      | some reservation =>
          let slotDiff := endSlot - startSlot
          let originalStartSlot := timeToSlotIndex reservation.startTime
          let newStartSlot := clampSlotIndex (originalStartSlot + slotDiff)
          let newStartTime := slotIndexToTime newStartSlot
          let newEndTime := newStartTime + reservation.durationMinutes
          (some { reservationId := reservationId, newTableId := tableId
                  newStartTime := newStartTime, newEndTime := newEndTime },
           initialDragState)
  | _, _, _, _, _ => (none, initialDragState)

/-- Model of `handleResizeDragEnd`: end-edge keeps the start and clamps the grown or
shrunk duration into `[30, 360]`; start-edge keeps the end and moves the
start back by the clamped duration. -/
def handleResizeDragEnd (dragState : DragState)
    (getReservationById : String → Option Reservation) :
    Option DragResizeResult × DragState :=
  match dragState.dragType, dragState.reservationId, dragState.startSlot,
      dragState.endSlot with
  | some DragType.resizeEnd, some reservationId, some startSlot, some endSlot =>
      match getReservationById reservationId with
      | none => (none, initialDragState)
      | some reservation =>
          let slotDiff := endSlot - startSlot
          let newStartTime := reservation.startTime
          let newDurationMinutes :=
            max 30 (min 360 (reservation.durationMinutes + slotDiff * 15))
          let newEndTime := newStartTime + newDurationMinutes
          (some { reservationId := reservationId, newStartTime := newStartTime
                  newEndTime := newEndTime, newDurationMinutes := newDurationMinutes },
           initialDragState)
  | some DragType.resizeStart, some reservationId, some startSlot, some endSlot =>
      match getReservationById reservationId with
      | none => (none, initialDragState)
      | some reservation =>
          let slotDiff := endSlot - startSlot
          let newEndTime := reservation.endTime
          let newDurationMinutes :=
            max 30 (min 360 (reservation.durationMinutes - slotDiff * 15))
          let newStartTime := newEndTime + (-newDurationMinutes)
          (some { reservationId := reservationId, newStartTime := newStartTime
                  newEndTime := newEndTime, newDurationMinutes := newDurationMinutes },
           initialDragState)
  | _, _, _, _ => (none, initialDragState)

/-! ### Claim C3: create commit emits only durations of 30 minutes or more -/

/-- Claim C3: on pointer-up in the Creating state with a valid session, the
commit emits `{tableId, slotIndexToTime startSlot, slotIndexToTime endSlot,
durationMinutes}` when the duration is at least 30 minutes, emits nothing
when it is below 30 minutes, and clears the session either way. -/
theorem createCommit_spec (dragState : DragState) (ss es : Int) (tid : String)
    (hdrag : dragState.isDragging = true)
    (htype : dragState.dragType = some DragType.create)
    (hss : dragState.startSlot = some ss)
    (hes : dragState.endSlot = some es)
    (htid : dragState.tableId = some tid) :
    (30 ≤ slotsToDuration (es - ss) →
      (timelineGridMouseUp dragState).1
        = some { tableId := tid, startTime := slotIndexToTime ss
                 endTime := slotIndexToTime es
                 durationMinutes := slotsToDuration (es - ss) })
    ∧ (slotsToDuration (es - ss) < 30 → (timelineGridMouseUp dragState).1 = none)
    ∧ (timelineGridMouseUp dragState).2 = initialDragState := by
  obtain ⟨d, ty, ta, s, e, rid⟩ := dragState
  simp only at hdrag htype hss hes htid
  subst hdrag htype hss hes htid
  refine ⟨?_, ?_, ?_⟩
  · intro hge
    simp [timelineGridMouseUp, handleCreateDragEnd, hge]
  · intro hlt
    simp [timelineGridMouseUp, handleCreateDragEnd]
    omega
  · simp [timelineGridMouseUp, handleCreateDragEnd]

/-- Witness for C3: a create session from slot 4 to slot 8 (duration 60)
commits the expected result and resets the session. -/
theorem createCommit_spec_witness :
    (timelineGridMouseUp
        { isDragging := true, dragType := some DragType.create
          tableId := some "T1", startSlot := some 4, endSlot := some 8
          reservationId := none }).1
      = some { tableId := "T1", startTime := slotIndexToTime 4
               endTime := slotIndexToTime 8, durationMinutes := slotsToDuration 4 } :=
  (createCommit_spec
    { isDragging := true, dragType := some DragType.create
      tableId := some "T1", startSlot := some 4, endSlot := some 8
      reservationId := none }
    4 8 "T1" rfl rfl rfl rfl rfl).1 (by norm_num [slotsToDuration, SLOT_MINUTES])

/-! ### Claim C4: the create scenario of the spec -/

/-- Counterexample for C4: with the operating window 11:00 to 24:00 and
15-minute slots, the create gesture with session slots 48 to 52 on "T1"
commits start minute 1380 (= 23:00), not minute 720 (= 12:00) as the claim
states: slot 48 lies 48 slots after the 11:00 window start. -/
theorem createScenario_counterexample :
    (timelineGridMouseUp
        { isDragging := true, dragType := some DragType.create
          tableId := some "T1", startSlot := some 48, endSlot := some 52
          reservationId := none }).1
      = some { tableId := "T1", startTime := 1380, endTime := 1440
               durationMinutes := 60 }
    ∧ (1380 : Int) ≠ 720 := by
  constructor
  · rfl
  · norm_num

/-- Claim C4 (amended): the create gesture with session slots 48 to 52 on
"T1" commits `{tableId := "T1", start := 23:00, end := 24:00 (midnight),
durationMinutes := 60}` — slots count from the 11:00 window start, so slot
48 is 23:00 and slot 52 is 24:00. -/
theorem createScenario_amended :
    (timelineGridMouseUp
        { isDragging := true, dragType := some DragType.create
          tableId := some "T1", startSlot := some 48, endSlot := some 52
          reservationId := none }).1
      = some { tableId := "T1", startTime := 23 * 60, endTime := 24 * 60
               durationMinutes := 60 } := by
  rfl

/-! ### Claim C5: move commit is delta-based and preserves duration -/

/-- Claim C5: a move commit places the reservation at
`clampSlotIndex (originalStartSlot + (endSlot - startSlot))` — a delta from
the drag origin — and the emitted interval keeps the original duration. -/
theorem moveCommit_spec (dragState : DragState) (ss es : Int)
    (tid rid : String) (getReservationById : String → Option Reservation)
    (reservation : Reservation)
    (htype : dragState.dragType = some DragType.move)
    (hrid : dragState.reservationId = some rid)
    (hss : dragState.startSlot = some ss)
    (hes : dragState.endSlot = some es)
    (htid : dragState.tableId = some tid)
    (hres : getReservationById rid = some reservation) :
    ∃ result : DragMoveResult,
      (handleMoveDragEnd dragState getReservationById).1 = some result
      ∧ result.newStartTime = slotIndexToTime
          (clampSlotIndex (timeToSlotIndex reservation.startTime + (es - ss)))
      ∧ result.newEndTime - result.newStartTime = reservation.durationMinutes := by
  obtain ⟨d, ty, ta, s, e, r⟩ := dragState
  simp only at htype hrid hss hes htid
  subst htype hrid hss hes htid
  refine ⟨{ reservationId := rid, newTableId := tid
            newStartTime := slotIndexToTime
              (clampSlotIndex (timeToSlotIndex reservation.startTime + (es - ss)))
            newEndTime := slotIndexToTime
                (clampSlotIndex (timeToSlotIndex reservation.startTime + (es - ss)))
              + reservation.durationMinutes }, ?_, rfl, by dsimp only; omega⟩
  simp [handleMoveDragEnd, hres]

/-- Witness for C5: moving a 90-minute reservation starting at 12:00
(minute 720, slot 4) with a drag delta of +3 slots lands on slot 7 and
keeps the 90-minute duration. -/
theorem moveCommit_spec_witness :
    ∃ result : DragMoveResult,
      (handleMoveDragEnd
          { isDragging := true, dragType := some DragType.move
            tableId := some "T2", startSlot := some 10, endSlot := some 13
            reservationId := some "r1" }
          (fun i => if i = "r1"
            then some ⟨"r1", "T1", 720, 810, 90, ReservationStatus.CONFIRMED⟩
            else none)).1 = some result
      ∧ result.newStartTime = slotIndexToTime
          (clampSlotIndex (timeToSlotIndex 720 + (13 - 10)))
      ∧ result.newEndTime - result.newStartTime = 90 :=
  moveCommit_spec
    { isDragging := true, dragType := some DragType.move
      tableId := some "T2", startSlot := some 10, endSlot := some 13
      reservationId := some "r1" }
    10 13 "T2" "r1"
    (fun i => if i = "r1"
      then some ⟨"r1", "T1", 720, 810, 90, ReservationStatus.CONFIRMED⟩
      else none)
    ⟨"r1", "T1", 720, 810, 90, ReservationStatus.CONFIRMED⟩
    rfl rfl rfl rfl rfl (by simp)

/-! ### Claim C6: resize commit clamps the duration into [30, 360] -/

/-- Claim C6: resize commits emit a duration clamped into `[30, 360]`; the
end edge keeps the original start and sets duration
`clamp(original + slotDiff * 15, 30, 360)`; the start edge keeps the
original end, sets duration `clamp(original - slotDiff * 15, 30, 360)` and
start = end - duration. -/
theorem resizeCommit_spec (ss es : Int) (rid : String)
    (getReservationById : String → Option Reservation)
    (reservation : Reservation)
    (hres : getReservationById rid = some reservation) :
    (∃ result : DragResizeResult,
      (handleResizeDragEnd
          { isDragging := true, dragType := some DragType.resizeEnd
            tableId := none, startSlot := some ss, endSlot := some es
            reservationId := some rid } getReservationById).1 = some result
      ∧ result.newDurationMinutes
          = max 30 (min 360 (reservation.durationMinutes + (es - ss) * 15))
      ∧ result.newStartTime = reservation.startTime
      ∧ result.newEndTime = result.newStartTime + result.newDurationMinutes
      ∧ 30 ≤ result.newDurationMinutes ∧ result.newDurationMinutes ≤ 360)
    ∧ (∃ result : DragResizeResult,
      (handleResizeDragEnd
          { isDragging := true, dragType := some DragType.resizeStart
            tableId := none, startSlot := some ss, endSlot := some es
            reservationId := some rid } getReservationById).1 = some result
      ∧ result.newDurationMinutes
          = max 30 (min 360 (reservation.durationMinutes - (es - ss) * 15))
      ∧ result.newEndTime = reservation.endTime
      ∧ result.newStartTime = result.newEndTime - result.newDurationMinutes
      ∧ 30 ≤ result.newDurationMinutes ∧ result.newDurationMinutes ≤ 360) := by
  constructor
  · refine ⟨{ reservationId := rid
              newStartTime := reservation.startTime
              newEndTime := reservation.startTime
                + max 30 (min 360 (reservation.durationMinutes + (es - ss) * 15))
              newDurationMinutes :=
                max 30 (min 360 (reservation.durationMinutes + (es - ss) * 15)) },
      ?_, rfl, rfl, rfl, by dsimp only; omega, by dsimp only; omega⟩
    simp [handleResizeDragEnd, hres]
  · refine ⟨{ reservationId := rid
              newStartTime := reservation.endTime
                - max 30 (min 360 (reservation.durationMinutes - (es - ss) * 15))
              newEndTime := reservation.endTime
              newDurationMinutes :=
                max 30 (min 360 (reservation.durationMinutes - (es - ss) * 15)) },
      ?_, rfl, rfl, by dsimp only, by dsimp only; omega, by dsimp only; omega⟩
    simp [handleResizeDragEnd, hres, Int.sub_eq_add_neg]

/-- Witness for C6: resizing a 60-minute reservation; the end-edge drag of
-10 slots (a 150 minute reduction) clamps the duration to 30 rather than
going negative. -/
theorem resizeCommit_spec_witness :
    ∃ result : DragResizeResult,
      (handleResizeDragEnd
          { isDragging := true, dragType := some DragType.resizeEnd
            tableId := none, startSlot := some 20, endSlot := some 10
            reservationId := some "r1" }
          (fun i => if i = "r1"
            then some ⟨"r1", "T1", 720, 780, 60, ReservationStatus.CONFIRMED⟩
            else none)).1 = some result
      ∧ result.newDurationMinutes = max 30 (min 360 (60 + (10 - 20) * 15))
      ∧ result.newStartTime = 720
      ∧ result.newEndTime = result.newStartTime + result.newDurationMinutes
      ∧ 30 ≤ result.newDurationMinutes ∧ result.newDurationMinutes ≤ 360 :=
  (resizeCommit_spec 20 10 "r1"
    (fun i => if i = "r1"
      then some ⟨"r1", "T1", 720, 780, 60, ReservationStatus.CONFIRMED⟩
      else none)
    ⟨"r1", "T1", 720, 780, 60, ReservationStatus.CONFIRMED⟩
    (by simp)).1

/-! ### Alternative-table and alternative-time suggestions (src/utils/gridHelpers.ts) -/

structure TableCapacity where
  min : Int
  max : Int
deriving DecidableEq, Repr

structure Table where
  id : String
  capacity : TableCapacity
deriving DecidableEq, Repr

/-- The comparator of `findAlternativeTables`
(`(a, b) => a.capacity.max - b.capacity.max`, ascending). -/
def capacityLE (a b : Table) : Prop := a.capacity.max ≤ b.capacity.max

instance : DecidableRel capacityLE :=
  fun a b => inferInstanceAs (Decidable (a.capacity.max ≤ b.capacity.max))

instance : IsTotal Table capacityLE :=
  ⟨fun a b => Int.le_total a.capacity.max b.capacity.max⟩

instance : IsTrans Table capacityLE :=
  ⟨fun _ _ _ hab hbc => le_trans hab hbc⟩

/-- Model of `findAlternativeTables`: drop the excluded table, keep tables whose
capacity range contains the party size, and sort ascending by maximum
capacity. `Array.prototype.sort` is a stable sort; `List.insertionSort` is a
stable sort, so it models it faithfully for this total comparator. -/
def findAlternativeTables (tables : List Table) (partySize : Int)
    (excludeTableId : Option String) : List Table :=
  List.insertionSort capacityLE
    ((tables.filter (fun t => decide (¬excludeTableId = some t.id))).filter
      (fun t => decide (partySize ≥ t.capacity.min)
        && decide (partySize ≤ t.capacity.max)))

/-- Model of `findAlternativeTimeSlots`: try start offsets -30, -15, +15, +30 minutes
with the same duration, and keep each offset start whose interval has no
conflict (no exclusion id is passed to the conflict check). -/
def findAlternativeTimeSlots (tableId : String) (startTime : Int)
    (durationMinutes : Int) (reservations : List Reservation) : List Int :=
  let offsets : List Int := [-30, -15, 15, 30]
  offsets.filterMap (fun offset =>
    let altStart := startTime + offset
    let altEnd := altStart + durationMinutes
    let conflict := checkReservationConflict
      ⟨some tableId, some altStart, some altEnd⟩ reservations none
    if conflict.hasConflict then none else some altStart)

/-! ### Claim C8: alternative tables -/

/-- Claim C8: `findAlternativeTables` returns exactly the tables other than
the excluded one whose capacity range contains the party size (as a
permutation of that filter), sorted ascending by maximum capacity; in the
scenario with maximum capacities 4, 6, 10 all fitting party size 4 and the
capacity-4 table excluded, the order is the capacity-6 table then the
capacity-10 table. -/
theorem findAlternativeTables_spec (tables : List Table) (partySize : Int)
    (excludeTableId : Option String) :
    List.Perm (findAlternativeTables tables partySize excludeTableId)
      (tables.filter (fun t => decide (excludeTableId ≠ some t.id)
        && decide (t.capacity.min ≤ partySize)
        && decide (partySize ≤ t.capacity.max)))
    ∧ List.Pairwise (fun a b : Table => a.capacity.max ≤ b.capacity.max)
        (findAlternativeTables tables partySize excludeTableId)
    ∧ findAlternativeTables
        [⟨"A", ⟨2, 4⟩⟩, ⟨"B", ⟨2, 6⟩⟩, ⟨"C", ⟨2, 10⟩⟩] 4 (some "A")
        = [⟨"B", ⟨2, 6⟩⟩, ⟨"C", ⟨2, 10⟩⟩] := by
  refine ⟨?_, ?_, by decide⟩
  · refine (List.perm_insertionSort capacityLE _).trans ?_
    rw [List.filter_filter]
    apply List.Perm.of_eq
    apply List.filter_congr
    intro t ht
    by_cases h1 : excludeTableId = some t.id <;>
      by_cases h2 : t.capacity.min ≤ partySize <;>
      by_cases h3 : partySize ≤ t.capacity.max <;>
      simp [h1, h2, h3]
  · have hs := List.sorted_insertionSort capacityLE
      ((tables.filter (fun t => decide (¬excludeTableId = some t.id))).filter
        (fun t => decide (partySize ≥ t.capacity.min)
          && decide (partySize ≤ t.capacity.max)))
    exact hs

/-! ### Claim C9: alternative start times -/

/-- Claim C9: `findAlternativeTimeSlots` considers exactly the four offsets
-30, -15, +15 and +30 minutes: its result is a sublist of the four offset
start times in that listed order, and a time belongs to it exactly when it
is one of the four offset starts and its interval (same duration) has no
conflict on the table. -/
theorem findAlternativeTimeSlots_spec (tableId : String) (startTime : Int)
    (durationMinutes : Int) (reservations : List Reservation) :
    List.Sublist (findAlternativeTimeSlots tableId startTime durationMinutes reservations)
      [startTime + -30, startTime + -15, startTime + 15, startTime + 30]
    ∧ ∀ x : Int,
      (x ∈ findAlternativeTimeSlots tableId startTime durationMinutes reservations
        ↔ ∃ offset ∈ ([-30, -15, 15, 30] : List Int), x = startTime + offset
            ∧ (checkReservationConflict
                ⟨some tableId, some x, some (x + durationMinutes)⟩
                reservations none).hasConflict = false) := by
  constructor
  · simp only [findAlternativeTimeSlots, List.filterMap]
    by_cases h1 : (checkReservationConflict
        ⟨some tableId, some (startTime + -30), some (startTime + -30 + durationMinutes)⟩
        reservations none).hasConflict <;>
      by_cases h2 : (checkReservationConflict
        ⟨some tableId, some (startTime + -15), some (startTime + -15 + durationMinutes)⟩
        reservations none).hasConflict <;>
      by_cases h3 : (checkReservationConflict
        ⟨some tableId, some (startTime + 15), some (startTime + 15 + durationMinutes)⟩
        reservations none).hasConflict <;>
      by_cases h4 : (checkReservationConflict
        ⟨some tableId, some (startTime + 30), some (startTime + 30 + durationMinutes)⟩
        reservations none).hasConflict <;>
      simp [h1, h2, h3, h4]
  · intro x
    simp only [findAlternativeTimeSlots, List.mem_filterMap]
    constructor
    · rintro ⟨offset, hoff, hf⟩
      by_cases hc : (checkReservationConflict
          ⟨some tableId, some (startTime + offset),
            some (startTime + offset + durationMinutes)⟩
          reservations none).hasConflict
      · simp [hc] at hf
      · rw [if_neg hc] at hf
        obtain rfl := Option.some.inj hf
        exact ⟨offset, hoff, rfl, by simpa using hc⟩
    · rintro ⟨offset, hoff, hx, hnc⟩
      subst hx
      refine ⟨offset, hoff, ?_⟩
      rw [if_neg (by simp [hnc])]

end RMS
